import Mathlib

/-!
Shallow embedding of the WCKB type script (src/c/wckb.c).

The script validates one transaction: it classifies input and output cells
(deposit-withdrawal, deposit-creation, wrapped-token), accumulates
fixed-capacity buckets, aligns every bucketed amount to the block number of
the header referenced by the first self-group input, and checks the two
balance equations.

External collaborators (the CKB syscall layer, `load_dao_header_data`,
`extract_deposit_header_index` and `calculate_dao_input_capacity` from
dao_utils.h, which are not part of this repository's source) are modelled as
components of an environment record `Env`.  Machine integers are `Nat` with
explicit `% 2^64` / `% 2^128` where the C performs wrapping arithmetic or a
narrowing conversion.  Reads of uninitialized stack memory (which the C
performs in two places) are modelled by environment-supplied garbage values;
out-of-bounds array writes (which the C performs when the uncapped input
buckets overflow) are modelled by the distinguished outcome `Err.undefined`.
-/

namespace WCKB

set_option maxRecDepth 100000

/-- BLAKE2B_BLOCK_SIZE from wckb.c. -/
def BLAKE2B_BLOCK_SIZE : Nat := 32

/-- BLOCK_NUM_LEN from wckb.c. -/
def BLOCK_NUM_LEN : Nat := 8

/-- UDT_LEN from wckb.c. -/
def UDT_LEN : Nat := 16

/-- MAX_SWAPS from wckb.c. -/
def MAX_SWAPS : Nat := 256

/-- Modulus of the C type uint64_t. -/
def U64MOD : Nat := 2 ^ 64

/-- Modulus of the C type uint128_t. -/
def U128MOD : Nat := 2 ^ 128

/-- NERVOS_DAO_TYPE_HASH from wckb.c: 32 zero bytes. -/
def NERVOS_DAO_TYPE_HASH : List Nat := List.replicate 32 0

/-- Error outcomes. Modelled from the spec: the distinct error codes of
common.h (not under src/) named by the spec's error taxonomy (§7), plus
`undefined`, which marks executions where the C program performs undefined
behaviour (out-of-bounds array access or a read through a moved-past-the-end
pointer) and therefore has no defined result at all. -/
inductive Err where
  | syscall
  | encoding
  | tooManySwaps
  | align
  | outputAlign
  | incorrectOutput
  | incorrectUninitOutput
  | undefined
deriving DecidableEq, Repr

/-- Cell sources used by the script: CKB_SOURCE_INPUT, CKB_SOURCE_OUTPUT,
CKB_SOURCE_GROUP_INPUT, CKB_SOURCE_HEADER_DEP. -/
inductive Source where
  | input
  | output
  | groupInput
  | headerDep
deriving DecidableEq, Repr

/-- dao_header_data_t: the block number together with the accrual-relevant
header fields (modelled as one opaque `Nat`, the core never inspects them). -/
structure DaoHeaderData where
  block_number : Nat
  acc_rate : Nat
deriving DecidableEq, Repr, Inhabited

/-- SwapInfo from wckb.c: an amount keyed by a 32-byte lock hash
(bytes modelled as a list of `Nat`). -/
structure SwapInfo where
  lock_hash : List Nat
  amount : Nat
deriving DecidableEq, Repr, Inhabited

/-- TokenInfo from wckb.c: a u64 block number and a u128 amount. -/
structure TokenInfo where
  block_number : Nat
  amount : Nat
deriving DecidableEq, Repr, Inhabited

/-- One transaction cell as the syscall layer exposes it to the script:
type-script hash (`none` models CKB_ITEM_MISSING), raw data payload as bytes,
lock-script hash, capacity and occupied capacity. -/
structure Cell where
  type_hash_opt : Option (List Nat)
  data : List Nat
  cell_lock_hash : List Nat
  capacity : Nat
  occupied_capacity : Nat
deriving DecidableEq, Repr, Inhabited

/-- The environment: the transaction plus the external collaborators.
`load_dao_header_data`, `extract_deposit_header_index` and
`calculate_dao_input_capacity` are modelled from the spec (§6): they are
collaborator interfaces supplied by the host, their headers are not under
src/, so they are uninterpreted environment functions.
`stack_garbage_u64 i` is the indeterminate value of the 8 uninitialized bytes
`buf+16..24` when iteration `i` of fetch_inputs loads only 16 data bytes;
`garbage_header` is the indeterminate value of a dao_header_data_t whose
load failed but whose result is used anyway (fetch_inputs ignores the return
code of load_dao_header_data); `main_calculated_capacity_init` is the
indeterminate initial value of main's uninitialized local
`calculated_capacity`. -/
structure Env where
  script_hash : List Nat
  inputs : List Cell
  outputs : List Cell
  load_dao_header_data : Source → Nat → Except Err DaoHeaderData
  extract_deposit_header_index : Nat → Except Err Nat
  calculate_dao_input_capacity :
    Nat → DaoHeaderData → DaoHeaderData → Nat → Nat → Nat
  stack_garbage_u64 : Nat → Nat
  garbage_header : DaoHeaderData
  main_calculated_capacity_init : Nat

/-- Little-endian byte-list decoding, the model of the C type puns
`*(uint128_t *)buf` and `*(uint64_t *)buf`. -/
def read_le : List Nat → Nat
  | [] => 0
  | b :: rest => b + 256 * read_le rest

/-- is_dao_deposit_cell from wckb.c: NervosDAO type hash and a data payload
of exactly 8 zero bytes. -/
def is_dao_deposit_cell (cell_type_hash : List Nat) (data : List Nat) : Prop :=
  cell_type_hash = NERVOS_DAO_TYPE_HASH ∧
  data.length = BLOCK_NUM_LEN ∧
  data = List.replicate BLOCK_NUM_LEN 0

instance (th data : List Nat) : Decidable (is_dao_deposit_cell th data) := by
  unfold is_dao_deposit_cell
  infer_instance

/-- is_dao_withdraw1_cell from wckb.c: NervosDAO type hash and a data payload
of exactly 8 bytes, not all zero. -/
def is_dao_withdraw1_cell (cell_type_hash : List Nat) (data : List Nat) : Prop :=
  cell_type_hash = NERVOS_DAO_TYPE_HASH ∧
  data.length = BLOCK_NUM_LEN ∧
  data ≠ List.replicate BLOCK_NUM_LEN 0

instance (th data : List Nat) : Decidable (is_dao_withdraw1_cell th data) := by
  unfold is_dao_withdraw1_cell
  infer_instance

/-- find_swap_by_lock_hash from wckb.c: forward linear scan, index of the
first entry with the given lock hash (`none` models the C return -1). -/
def find_swap_by_lock_hash : List SwapInfo → List Nat → Option Nat
  | [], _ => none
  | s :: rest, lock =>
    if s.lock_hash = lock then some 0
    else (find_swap_by_lock_hash rest lock).map (· + 1)

/-- find_token_by_block_number from wckb.c: forward linear scan, index of
the first entry with the given block number. -/
def find_token_by_block_number : List TokenInfo → Nat → Option Nat
  | [], _ => none
  | t :: rest, bn =>
    if t.block_number = bn then some 0
    else (find_token_by_block_number rest bn).map (· + 1)

/-- In-place update of list element `i` (the model of a C array-slot write
at an index below the written length). -/
def list_modify (f : α → α) : Nat → List α → List α
  | _, [] => []
  | 0, a :: l => f a :: l
  | n + 1, a :: l => a :: list_modify f n l

/-- Write to array slot `i` of a list that models the written prefix of a C
array: overwrite if `i` is below the written length, append if `i` equals it. -/
def list_write (l : List α) (i : Nat) (x : α) : List α :=
  l.take i ++ [x] ++ l.drop (i + 1)

/-- The two buckets built by fetch_inputs. -/
structure InBuckets where
  withdraw_dao : List TokenInfo
  input_wckb : List TokenInfo
deriving DecidableEq, Repr, Inhabited

/-- Loop body of fetch_inputs from wckb.c, iterating input cells from
position `i`.  Faithful to the source, including: the return codes of the two
load_dao_header_data calls are ignored (on failure the garbage header is
used); the wrapped-token branch demands a data length of exactly UDT_LEN = 16
and then reads the 8 bytes after the 16 loaded ones, i.e. uninitialized
stack (`stack_garbage_u64`); and neither bucket append checks MAX_SWAPS, so
an append at index ≥ 256 is an out-of-bounds write, `Err.undefined`. -/
def fetch_inputs_go (env : Env) :
    List Cell → Nat → List TokenInfo → List TokenInfo → Except Err InBuckets
  | [], _, wd, iw => .ok ⟨wd, iw⟩
  | c :: rest, i, wd, iw =>
    match c.type_hash_opt with
    | none => fetch_inputs_go env rest (i + 1) wd iw
    | some th =>
      if th.length ≠ BLAKE2B_BLOCK_SIZE then .error .encoding
      else if c.data.length > UDT_LEN + BLOCK_NUM_LEN then .error .encoding
      else if is_dao_withdraw1_cell th c.data then
        let deposited_block_number := read_le (c.data.take BLOCK_NUM_LEN)
        match env.extract_deposit_header_index i with
        | .error e => .error e
        | .ok deposit_index =>
          let deposit_data :=
            ((env.load_dao_header_data .headerDep deposit_index).toOption).getD
              env.garbage_header
          let withdraw_data :=
            ((env.load_dao_header_data .input i).toOption).getD
              env.garbage_header
          let occupied_capacity := c.occupied_capacity % U64MOD
          let original_capacity := c.capacity % U64MOD
          let calculated_capacity :=
            env.calculate_dao_input_capacity occupied_capacity deposit_data
              withdraw_data deposited_block_number original_capacity % U64MOD
          if wd.length ≥ MAX_SWAPS then .error .undefined
          else
            fetch_inputs_go env rest (i + 1)
              (wd ++ [⟨withdraw_data.block_number, calculated_capacity⟩]) iw
      else if th = env.script_hash then
        if c.data.length ≠ UDT_LEN then .error .encoding
        else
          let amount := read_le (c.data.take UDT_LEN)
          let block_number := env.stack_garbage_u64 i % U64MOD
          if iw.length ≥ MAX_SWAPS then .error .undefined
          else
            fetch_inputs_go env rest (i + 1) wd (iw ++ [⟨block_number, amount⟩])
      else fetch_inputs_go env rest (i + 1) wd iw

/-- fetch_inputs from wckb.c. -/
def fetch_inputs (env : Env) : Except Err InBuckets :=
  fetch_inputs_go env env.inputs 0 [] []

/-- The buckets built by fetch_outputs. `deposited_dao` is the written
prefix of the deposited-dao array; `deposited_dao_cnt` is the count the
CALLER sees, which the new-insertion branch fails to increment (wckb.c line
283 increments the pointer parameter itself, `deposited_dao_cnt++`, instead
of the pointee); `dao_ptr_bumped` records that this has happened, after
which any further read through the moved pointer is undefined behaviour. -/
structure OutBuckets where
  deposited_dao : List SwapInfo
  deposited_dao_cnt : Nat
  dao_ptr_bumped : Bool
  uninitialized_wckb : List SwapInfo
  initialized_wckb : List TokenInfo
deriving DecidableEq, Repr, Inhabited

/-- Body of the fetch_outputs loop from wckb.c for the output cell `c` at
position `i`: classify the cell (deposit-creation, uninitialized
wrapped-token, initialized wrapped-token, ignored) and update the buckets.
`.ok` is "continue the scan with this state". -/
def fetch_outputs_step (env : Env) (align_block_number : Nat) (c : Cell)
    (st : OutBuckets) : Except Err OutBuckets :=
  match c.type_hash_opt with
  | none => .ok st
  | some th =>
    if th.length ≠ BLAKE2B_BLOCK_SIZE then .error .encoding
    else if c.data.length > UDT_LEN + BLOCK_NUM_LEN then .error .encoding
    else if is_dao_deposit_cell th c.data then
      if c.cell_lock_hash.length ≠ BLAKE2B_BLOCK_SIZE then .error .syscall
      else
        if st.dao_ptr_bumped then .error .undefined
        else
          match
            find_swap_by_lock_hash
              (st.deposited_dao.take st.deposited_dao_cnt) c.cell_lock_hash
          with
          | some j =>
            .ok
              { st with
                deposited_dao :=
                  list_modify
                    (fun s =>
                      { s with
                        amount :=
                          (s.amount + c.capacity % U64MOD) % U128MOD })
                    j st.deposited_dao }
          | none =>
            if st.deposited_dao_cnt ≥ MAX_SWAPS then .error .tooManySwaps
            else
              .ok
                { st with
                  deposited_dao :=
                    list_write st.deposited_dao st.deposited_dao_cnt
                      ⟨c.cell_lock_hash, c.capacity % U64MOD⟩
                  dao_ptr_bumped := true }
    else if th = env.script_hash then
      if c.data.length ≠ UDT_LEN + BLOCK_NUM_LEN then .error .encoding
      else
        if read_le (c.data.drop UDT_LEN) = 0 then
          if c.cell_lock_hash.length ≠ BLAKE2B_BLOCK_SIZE then .error .syscall
          else
            match
              find_swap_by_lock_hash st.uninitialized_wckb c.cell_lock_hash
            with
            | some j =>
              .ok
                { st with
                  uninitialized_wckb :=
                    list_modify
                      (fun s =>
                        { s with
                          amount :=
                            (s.amount + read_le (c.data.take UDT_LEN)) %
                              U128MOD })
                      j st.uninitialized_wckb }
            | none =>
              if st.uninitialized_wckb.length ≥ MAX_SWAPS then
                .error .tooManySwaps
              else
                .ok
                  { st with
                    uninitialized_wckb :=
                      st.uninitialized_wckb ++
                        [⟨c.cell_lock_hash, read_le (c.data.take UDT_LEN)⟩] }
        else
          if read_le (c.data.drop UDT_LEN) ≠ align_block_number then
            .error .outputAlign
          else
            match
              find_token_by_block_number st.initialized_wckb
                (read_le (c.data.drop UDT_LEN))
            with
            | some j =>
              .ok
                { st with
                  initialized_wckb :=
                    list_modify
                      (fun t =>
                        { t with
                          amount :=
                            (t.amount + read_le (c.data.take UDT_LEN)) %
                              U128MOD })
                      j st.initialized_wckb }
            | none =>
              if st.initialized_wckb.length ≥ MAX_SWAPS then
                .error .tooManySwaps
              else
                .ok
                  { st with
                    initialized_wckb :=
                      st.initialized_wckb ++
                        [⟨read_le (c.data.drop UDT_LEN),
                          read_le (c.data.take UDT_LEN)⟩] }
    else .ok st

/-- Loop of fetch_outputs from wckb.c, iterating output cells from position
`i`: the first failing cell aborts the scan with its error. -/
def fetch_outputs_go (env : Env) (align_block_number : Nat) :
    List Cell → Nat → OutBuckets → Except Err OutBuckets
  | [], _, st => .ok st
  | c :: rest, i, st =>
    match fetch_outputs_step env align_block_number c st with
    | .error e => .error e
    | .ok st2 => fetch_outputs_go env align_block_number rest (i + 1) st2

/-- fetch_outputs from wckb.c. -/
def fetch_outputs (env : Env) (align_block_number : Nat) : Except Err OutBuckets :=
  fetch_outputs_go env align_block_number env.outputs 0 ⟨[], 0, false, [], []⟩

/-- The cells reachable through a given source index space. -/
def cells_of (env : Env) : Source → List Cell
  | .input => env.inputs
  | .output => env.outputs
  | .groupInput => env.inputs.filter (fun c => c.type_hash_opt = some env.script_hash)
  | .headerDep => []

/-- align_dao from wckb.c.  `prev` is the current value of the caller's
`calculated_capacity`, and the result is its value after the call: the
equal-height branch of the C assigns `original_capacity = *calculated_capacity`
into a dead local and returns, so the caller's variable keeps its previous
value (`.ok prev`) instead of receiving the entry's amount.  The forward
branch loads occupied capacity and header of the cell at index `i` of
`source` (an out-of-range index makes the checked field load fail, which the
C maps to ERROR_ENCODING). -/
def align_dao (env : Env) (i : Nat) (source : Source)
    (align_target_data : DaoHeaderData) (deposited_block_number : Nat)
    (original_capacity : Nat) (prev : Nat) : Except Err Nat :=
  if align_target_data.block_number = deposited_block_number then .ok prev
  else if align_target_data.block_number < deposited_block_number then
    .error .align
  else
    match (cells_of env source).get? i with
    | none => .error .encoding
    | some c =>
      match env.load_dao_header_data source i with
      | .error e => .error e
      | .ok deposit_data =>
        let dbn :=
          if deposited_block_number = 0 then deposit_data.block_number
          else deposited_block_number
        .ok
          (env.calculate_dao_input_capacity (c.occupied_capacity % U64MOD)
              deposit_data align_target_data dbn original_capacity % U64MOD)

/-- One alignment loop of main from wckb.c: iterate a bucket, call align_dao
with the BUCKET index as the cell index (as the source does), accumulate the
wrapping u64 total, and thread `calculated_capacity` through.  Returns the
total together with the final `calculated_capacity`. -/
def align_loop (env : Env) (source : Source) (target : DaoHeaderData) :
    List TokenInfo → Nat → Nat → Nat → Except Err (Nat × Nat)
  | [], _, total, prev => .ok (total, prev)
  | e :: rest, i, total, prev =>
    match align_dao env i source target e.block_number (e.amount % U64MOD) prev with
    | .error er => .error er
    | .ok v => align_loop env source target rest (i + 1) ((total + v) % U64MOD) v

/-- Equation 2 loop of main from wckb.c: every uninitialized-wckb entry must
match a deposited-dao entry (searched within the caller-visible count) with
the same lock hash and the same amount. -/
def check_uninit (deposited : List SwapInfo) : List SwapInfo → Except Err Unit
  | [] => .ok ()
  | u :: rest =>
    match find_swap_by_lock_hash deposited u.lock_hash with
    | none => .error .incorrectUninitOutput
    | some j =>
      if u.amount ≠ ((deposited.get? j).getD default).amount then
        .error .incorrectUninitOutput
      else check_uninit deposited rest

/-- main from wckb.c: load the script hash and the alignment target header,
fetch input and output buckets, run the three alignment loops (sharing one
`calculated_capacity` variable, initially uninitialized), then check the two
equations.  `.ok ()` is exit code 0 (acceptance). -/
def main_run (env : Env) : Except Err Unit :=
  if env.script_hash.length ≠ BLAKE2B_BLOCK_SIZE then .error .syscall
  else
    match env.load_dao_header_data .groupInput 0 with
    | .error _ => .error .encoding
    | .ok align_target_data =>
      match fetch_inputs env with
      | .error e => .error e
      | .ok ib =>
        match fetch_outputs env align_target_data.block_number with
        | .error e => .error e
        | .ok ob =>
          match
            align_loop env .input align_target_data ib.withdraw_dao 0 0
              env.main_calculated_capacity_init
          with
          | .error e => .error e
          | .ok (total_withdraw_dao, p1) =>
            match
              align_loop env .input align_target_data ib.input_wckb 0 0 p1
            with
            | .error e => .error e
            | .ok (total_input_wckb, p2) =>
              match
                align_loop env .output align_target_data ob.initialized_wckb
                  0 0 p2
              with
              | .error e => .error e
              | .ok (total_output_wckb, _) =>
                if (total_input_wckb + U64MOD - total_withdraw_dao) % U64MOD ≠
                    total_output_wckb then
                  .error .incorrectOutput
                else
                  check_uninit
                    (ob.deposited_dao.take ob.deposited_dao_cnt)
                    ob.uninitialized_wckb

/-! ### Concrete transactions and environments used to settle the claims -/

/-- A 32-byte hash whose first byte is `b`. -/
def mk_hash (b : Nat) : List Nat := b :: List.replicate 31 0

/-- A NervosDAO withdrawal-phase-1 input cell: NervosDAO type hash and an
8-byte nonzero payload (the deposit's block number, here 5). -/
def withdraw_cell (occ : Nat) : Cell :=
  ⟨some NERVOS_DAO_TYPE_HASH, 5 :: List.replicate 7 0, mk_hash 9, 200, occ⟩

/-- An input wrapped-token cell of the running script with a 16-byte payload
(amount `a` < 256, little endian). -/
def wckb_in_cell16 (a : Nat) : Cell :=
  ⟨some (mk_hash 1), a :: List.replicate 15 0, mk_hash 9, 0, 3⟩

/-- Environment for the equal-height alignment scenario: one withdrawal
input whose withdrawal header has the alignment target's block number 100;
the accrual function yields 500, so the bucket entry is
`{block_number = 100, amount = 500}`; main's `calculated_capacity` local
starts with the indeterminate value 123. -/
def envC1 : Env where
  script_hash := mk_hash 1
  inputs := [withdraw_cell 1]
  outputs := []
  load_dao_header_data := fun s _ =>
    match s with
    | .groupInput => .ok ⟨100, 0⟩
    | .input => .ok ⟨100, 0⟩
    | .headerDep => .ok ⟨1, 0⟩
    | .output => .error .syscall
  extract_deposit_header_index := fun _ => .ok 0
  calculate_dao_input_capacity := fun _ _ _ _ _ => 500
  stack_garbage_u64 := fun _ => 0
  garbage_header := ⟨0, 0⟩
  main_calculated_capacity_init := 123

/-- Claim C1, refuted by the code: for a bucketed entry whose origin height
equals the alignment target's block number (here both 100), align_dao does
NOT produce the entry's amount A = 500.  The equal-height branch of the C
assigns `original_capacity = *calculated_capacity` into a dead local, so the
caller's `calculated_capacity` keeps its previous (here: uninitialized,
modelled as 123) value and the aligned total becomes 123 ≠ 500. -/
theorem c1_equal_height_keeps_stale_value :
    fetch_inputs envC1 = .ok ⟨[⟨100, 500⟩], []⟩ ∧
    align_dao envC1 0 .input ⟨100, 0⟩ 100 (500 % U64MOD) 123 = .ok 123 ∧
    align_loop envC1 .input ⟨100, 0⟩ [⟨100, 500⟩] 0 0
      envC1.main_calculated_capacity_init = .ok (123, 123) ∧
    (123 : Nat) ≠ 500 :=
  ⟨rfl, rfl, rfl, by decide⟩

/-- Claim C7: an entry whose origin height is strictly greater than the
alignment target's block number is rejected by align_dao with AlignError,
for every environment, source, cell index, amount and previous calculated
value. -/
theorem c7_backward_projection_rejected (env : Env) (i : Nat) (src : Source)
    (target : DaoHeaderData) (depBn origCap prev : Nat)
    (h : target.block_number < depBn) :
    align_dao env i src target depBn origCap prev = .error .align := by
  unfold align_dao
  rw [if_neg (Nat.ne_of_lt h), if_pos h]

/-- Witness for C7 at a concrete input: target block number 100, origin
height 101. -/
theorem c7_witness :
    (⟨100, 0⟩ : DaoHeaderData).block_number < 101 ∧
    align_dao envC1 0 .input ⟨100, 0⟩ 101 5 7 = .error .align :=
  ⟨by decide,
    c7_backward_projection_rejected envC1 0 .input ⟨100, 0⟩ 101 5 7 (by decide)⟩

/-- Environment with a single input wrapped-token cell carrying the full
24-byte payload (amount 7, height 100). -/
def envC5a : Env where
  script_hash := mk_hash 1
  inputs :=
    [⟨some (mk_hash 1),
      (7 :: List.replicate 15 0) ++ (100 :: List.replicate 7 0),
      mk_hash 9, 0, 3⟩]
  outputs := []
  load_dao_header_data := fun s _ =>
    match s with
    | .groupInput => .ok ⟨100, 0⟩
    | _ => .error .syscall
  extract_deposit_header_index := fun _ => .ok 0
  calculate_dao_input_capacity := fun _ _ _ _ _ => 0
  stack_garbage_u64 := fun _ => 0
  garbage_header := ⟨0, 0⟩
  main_calculated_capacity_init := 0

/-- Environment with a single 16-byte input wrapped-token cell (amount 7);
the 8 uninitialized stack bytes past the payload happen to hold 77. -/
def envC5b : Env where
  script_hash := mk_hash 1
  inputs := [wckb_in_cell16 7]
  outputs := []
  load_dao_header_data := fun s _ =>
    match s with
    | .groupInput => .ok ⟨100, 0⟩
    | _ => .error .syscall
  extract_deposit_header_index := fun _ => .ok 0
  calculate_dao_input_capacity := fun _ _ _ _ _ => 0
  stack_garbage_u64 := fun _ => 77
  garbage_header := ⟨0, 0⟩
  main_calculated_capacity_init := 0

/-- Claim C5, refuted by the code: the input classifier does NOT accept the
24-byte payload form — it demands exactly 16 bytes (wckb.c line 171
`len != UDT_LEN`) and rejects a 24-byte input wrapped-token cell with
EncodingError; and in the 16-byte form the entry's height is NOT implicitly
0 — it is read from the 8 uninitialized bytes after the loaded payload
(modelled by the environment's stack garbage, here 77). -/
theorem c5_input_payload_length_handling :
    fetch_inputs envC5a = .error .encoding ∧
    fetch_inputs envC5b = .ok ⟨[], [⟨77, 7⟩]⟩ ∧ (77 : Nat) ≠ 0 :=
  ⟨rfl, rfl, by decide⟩

/-- Environment whose transaction has 257 input wrapped-token cells. -/
def envC4a : Env where
  script_hash := mk_hash 1
  inputs := List.replicate 257 (wckb_in_cell16 7)
  outputs := []
  load_dao_header_data := fun s _ =>
    match s with
    | .groupInput => .ok ⟨100, 0⟩
    | _ => .error .syscall
  extract_deposit_header_index := fun _ => .ok 0
  calculate_dao_input_capacity := fun _ _ _ _ _ => 0
  stack_garbage_u64 := fun _ => 0
  garbage_header := ⟨0, 0⟩
  main_calculated_capacity_init := 0

/-- Environment whose transaction has 257 deposit-withdrawal input cells. -/
def envC4b : Env where
  script_hash := mk_hash 1
  inputs := List.replicate 257 (withdraw_cell 1)
  outputs := []
  load_dao_header_data := fun s _ =>
    match s with
    | .groupInput => .ok ⟨100, 0⟩
    | .input => .ok ⟨10, 0⟩
    | .headerDep => .ok ⟨1, 0⟩
    | .output => .error .syscall
  extract_deposit_header_index := fun _ => .ok 0
  calculate_dao_input_capacity := fun _ _ _ _ _ => 0
  stack_garbage_u64 := fun _ => 0
  garbage_header := ⟨0, 0⟩
  main_calculated_capacity_init := 0

/-- Claim C4, refuted by the code: fetch_inputs has NO capacity check on
either input bucket (unlike fetch_outputs); the 257th append writes past the
end of the 256-entry array, which is undefined behaviour (`Err.undefined` in
the model), not a TooManySwapsError rejection. -/
theorem c4_input_buckets_not_capped :
    fetch_inputs envC4a = .error .undefined ∧
    fetch_inputs envC4b = .error .undefined ∧
    Err.undefined ≠ Err.tooManySwaps :=
  ⟨rfl, rfl, by decide⟩

/-- Environment for the misaligned-cell-index scenario: input 0 is an
unrelated cell (occupied capacity 7), input 1 is the deposit-withdrawal cell
that produces the only bucket entry (occupied capacity 9).  The accrual
function returns its occupied-capacity argument, making visible which cell
the aligner reads. -/
def envC6 : Env where
  script_hash := mk_hash 1
  inputs :=
    [⟨some (mk_hash 3), [], mk_hash 4, 0, 7⟩,
     ⟨some NERVOS_DAO_TYPE_HASH, 5 :: List.replicate 7 0, mk_hash 5, 0, 9⟩]
  outputs := []
  load_dao_header_data := fun s i =>
    match s with
    | .groupInput => .ok ⟨100, 0⟩
    | .input => if i = 0 then .ok ⟨60, 0⟩ else .ok ⟨50, 0⟩
    | .headerDep => .ok ⟨1, 0⟩
    | .output => .error .syscall
  extract_deposit_header_index := fun _ => .ok 0
  calculate_dao_input_capacity := fun occ _ _ _ _ => occ
  stack_garbage_u64 := fun _ => 0
  garbage_header := ⟨0, 0⟩
  main_calculated_capacity_init := 0

/-- Claim C6, refuted by the code: main's alignment loop passes the BUCKET
index, not the producing cell's position, to align_dao.  Here the only
withdrawn-deposit entry comes from input cell 1 (occupied capacity 9), but
the forward projection reads input cell 0 (occupied capacity 7) and its
header, so the accrual function (the occupied-capacity projection) yields
7, not 9. -/
theorem c6_aligner_reads_bucket_index_cell :
    fetch_inputs envC6 = .ok ⟨[⟨50, 9⟩], []⟩ ∧
    (envC6.inputs.get? 0).map Cell.occupied_capacity = some 7 ∧
    (envC6.inputs.get? 1).map Cell.occupied_capacity = some 9 ∧
    align_loop envC6 .input ⟨100, 0⟩ [⟨50, 9⟩] 0 0 0 = .ok (7, 7) ∧
    (7 : Nat) ≠ 9 :=
  ⟨rfl, rfl, rfl, rfl, by decide⟩

/-- Environment for the wraparound-subtraction scenario: two withdrawal
inputs whose aligned values are 2^63+5 each (true withdrawn total 2^64+10,
wrapped u64 total 10), two 16-byte input wrapped-token cells whose aligned
values are 10 and 2^64-6 (true input total 2^64+4, wrapped u64 total 4), and
one initialized output wrapped-token cell of amount 2^64-6 at the target
height 100.  The accrual function dispatches on the origin-height argument. -/
def envC2 : Env where
  script_hash := mk_hash 1
  inputs :=
    [withdraw_cell 1, withdraw_cell 2, wckb_in_cell16 0,
     ⟨some (mk_hash 1), List.replicate 16 0, mk_hash 9, 0, 4⟩]
  outputs :=
    [⟨some (mk_hash 1),
      250 :: List.replicate 7 255 ++ List.replicate 8 0 ++
        100 :: List.replicate 7 0,
      mk_hash 9, 0, 0⟩]
  load_dao_header_data := fun s i =>
    match s with
    | .groupInput => .ok ⟨100, 0⟩
    | .input => if i = 0 then .ok ⟨10, 0⟩ else .ok ⟨11, 0⟩
    | .headerDep => .ok ⟨1, 0⟩
    | .output => .error .syscall
  extract_deposit_header_index := fun i => .ok i
  calculate_dao_input_capacity := fun _ _ _ dbn _ =>
    if dbn = 10 then 2 ^ 63 + 5
    else if dbn = 11 then 2 ^ 63 + 5
    else if dbn = 20 then 10
    else if dbn = 21 then 2 ^ 64 - 6
    else 0
  stack_garbage_u64 := fun i => if i = 2 then 20 else 21
  garbage_header := ⟨0, 0⟩
  main_calculated_capacity_init := 0

/-- Claim C2, refuted by the code: the aligned withdrawn-deposit total
(wrapped u64 value 10, true sum 2^64+10) exceeds the aligned input
wrapped-token total (wrapped u64 value 4, true sum 2^64+4) in both the
wrapped and the true sense, yet the run is ACCEPTED: equation 1's unsigned
subtraction wraps, (4 - 10) mod 2^64 = 2^64-6, which matches the output
total, so no IncorrectOutputError is reported. -/
theorem c2_wraparound_subtraction_accepts :
    fetch_inputs envC2 = .ok ⟨[⟨10, 0⟩, ⟨11, 0⟩], [⟨20, 0⟩, ⟨21, 0⟩]⟩ ∧
    align_loop envC2 .input ⟨100, 0⟩ [⟨10, 0⟩, ⟨11, 0⟩] 0 0 0 =
      .ok (10, 2 ^ 63 + 5) ∧
    align_loop envC2 .input ⟨100, 0⟩ [⟨20, 0⟩, ⟨21, 0⟩] 0 0 (2 ^ 63 + 5) =
      .ok (4, 2 ^ 64 - 6) ∧
    10 > 4 ∧
    (4 + U64MOD - 10) % U64MOD = 2 ^ 64 - 6 ∧
    main_run envC2 = .ok () :=
  ⟨rfl, rfl, rfl, by decide, by decide, rfl⟩

/-- Environment for deposit scenario B of the spec: one deposit-creation
output with lock `mk_hash 2` and capacity 500, and one uninitialized
wrapped-token output with the same lock and amount 500 (little-endian
payload 500 = 244 + 256·1). -/
def envC3 : Env where
  script_hash := mk_hash 1
  inputs := []
  outputs :=
    [⟨some NERVOS_DAO_TYPE_HASH, List.replicate 8 0, mk_hash 2, 500, 0⟩,
     ⟨some (mk_hash 1), 244 :: 1 :: List.replicate 22 0, mk_hash 2, 0, 0⟩]
  load_dao_header_data := fun s _ =>
    match s with
    | .groupInput => .ok ⟨100, 0⟩
    | _ => .error .syscall
  extract_deposit_header_index := fun _ => .ok 0
  calculate_dao_input_capacity := fun _ _ _ _ _ => 0
  stack_garbage_u64 := fun _ => 0
  garbage_header := ⟨0, 0⟩
  main_calculated_capacity_init := 0

/-- Claim C3, refuted by the code: in scenario B (matching lock, matching
amount 500, balanced equation 1) the deposited-dao array slot 0 IS written,
but the caller-visible count stays 0, because the new-insertion branch
increments the count pointer itself (wckb.c line 283 `deposited_dao_cnt++`)
instead of the pointed-to counter.  Equation 2 then searches an empty
prefix, finds no match for the uninitialized output, and the run is
REJECTED with IncorrectUninitOutputError instead of being accepted. -/
theorem c3_scenario_b_rejected :
    fetch_outputs envC3 100 =
      .ok ⟨[⟨mk_hash 2, 500⟩], 0, true, [⟨mk_hash 2, 500⟩], []⟩ ∧
    main_run envC3 = .error .incorrectUninitOutput :=
  ⟨rfl, rfl⟩

/-- Claim C8: an output wrapped-token cell with a 24-byte payload whose
height is nonzero and differs from the alignment target's block number makes
the output scan fail with OutputAlignError, whatever the bucket state, the
cell's amount, the remaining cells and the position. -/
theorem c8_mismatched_output_height_rejected (env : Env) (abn : Nat)
    (c : Cell) (rest : List Cell) (i : Nat) (st : OutBuckets)
    (hth : c.type_hash_opt = some env.script_hash)
    (hlen : env.script_hash.length = BLAKE2B_BLOCK_SIZE)
    (hdata : c.data.length = UDT_LEN + BLOCK_NUM_LEN)
    (hbn0 : read_le (c.data.drop UDT_LEN) ≠ 0)
    (hbna : read_le (c.data.drop UDT_LEN) ≠ abn) :
    fetch_outputs_go env abn (c :: rest) i st = .error .outputAlign := by
  have hdep : ¬ is_dao_deposit_cell env.script_hash c.data := by
    intro h
    rcases h with ⟨-, h2, -⟩
    rw [hdata] at h2
    exact absurd h2 (by decide)
  have hstep : fetch_outputs_step env abn c st = .error .outputAlign := by
    unfold fetch_outputs_step
    rw [hth]
    simp [hlen, hdata, hdep, hbn0, hbna]
  simp only [fetch_outputs_go, hstep]

/-- Witness for C8 at a concrete input: the alignment target's block number
is 100 but the output wrapped-token cell carries height 99. -/
theorem c8_witness :
    read_le ((List.replicate 16 0 ++ 99 :: List.replicate 7 0).drop UDT_LEN) ≠ 0 ∧
    fetch_outputs_go envC3 100
      [⟨some (mk_hash 1), List.replicate 16 0 ++ 99 :: List.replicate 7 0,
        mk_hash 2, 0, 0⟩]
      0 ⟨[], 0, false, [], []⟩ = .error .outputAlign :=
  ⟨by decide,
    c8_mismatched_output_height_rejected envC3 100 _ [] 0 _ rfl rfl rfl
      (by decide) (by decide)⟩

/-- A 32-byte lock hash determined by `n < 65536`, injective on that range. -/
def mk_lock (n : Nat) : List Nat := n % 256 :: n / 256 :: List.replicate 30 0

/-- An uninitialized output wrapped-token cell (24-byte payload, amount 0,
height 0) owned by lock `mk_lock n`. -/
def mk_uninit_cell (n : Nat) : Cell :=
  ⟨some (mk_hash 1), List.replicate 24 0, mk_lock n, 0, 0⟩

/-- Environment whose transaction has 257 uninitialized output wrapped-token
cells with pairwise distinct lock hashes. -/
def envC9 : Env where
  script_hash := mk_hash 1
  inputs := []
  outputs := (List.range 257).map mk_uninit_cell
  load_dao_header_data := fun s _ =>
    match s with
    | .groupInput => .ok ⟨100, 0⟩
    | _ => .error .syscall
  extract_deposit_header_index := fun _ => .ok 0
  calculate_dao_input_capacity := fun _ _ _ _ _ => 0
  stack_garbage_u64 := fun _ => 0
  garbage_header := ⟨0, 0⟩
  main_calculated_capacity_init := 0

/-- Claim C9: 257 distinct lock hashes among uninitialized output
wrapped-token cells overflow the 256-entry uninitialized bucket and the run
is rejected with TooManySwapsError. -/
theorem c9_uninit_bucket_overflow :
    main_run envC9 = .error .tooManySwaps :=
  rfl

/-- list_modify preserves length. -/
lemma list_modify_length (f : α → α) :
    ∀ (n : Nat) (l : List α), (list_modify f n l).length = l.length
  | 0, [] => rfl
  | _ + 1, [] => rfl
  | 0, _ :: _ => rfl
  | n + 1, a :: l => by simp [list_modify, list_modify_length f n l]

/-- Every element of a modified list is an old element or the image of one. -/
lemma mem_list_modify (f : α → α) :
    ∀ (n : Nat) (l : List α) (e : α), e ∈ list_modify f n l →
      e ∈ l ∨ ∃ x, x ∈ l ∧ e = f x
  | 0, [], e, h => absurd h (List.not_mem_nil e)
  | _ + 1, [], e, h => absurd h (List.not_mem_nil e)
  | 0, a :: l, e, h => by
    cases h with
    | head => exact Or.inr ⟨a, List.mem_cons_self a l, rfl⟩
    | tail _ h2 => exact Or.inl (List.mem_cons_of_mem a h2)
  | n + 1, a :: l, e, h => by
    cases h with
    | head => exact Or.inl (List.mem_cons_self a l)
    | tail _ h2 =>
      cases mem_list_modify f n l e h2 with
      | inl h3 => exact Or.inl (List.mem_cons_of_mem a h3)
      | inr h3 =>
        obtain ⟨x, hx, he⟩ := h3
        exact Or.inr ⟨x, List.mem_cons_of_mem a hx, he⟩

/-- A failed find_token_by_block_number scan means no entry carries the
block number. -/
lemma find_token_none :
    ∀ (l : List TokenInfo) (bn : Nat),
      find_token_by_block_number l bn = none →
      ∀ t ∈ l, t.block_number ≠ bn
  | [], _, _, t, ht => absurd ht (List.not_mem_nil t)
  | e :: rest, bn, h, t, ht => by
    unfold find_token_by_block_number at h
    by_cases he : e.block_number = bn
    · rw [if_pos he] at h
      exact absurd h (by simp)
    · rw [if_neg he] at h
      cases ht with
      | head => exact he
      | tail _ h2 =>
        cases hf : find_token_by_block_number rest bn with
        | none => exact find_token_none rest bn hf t h2
        | some v =>
          rw [hf] at h
          exact absurd h (by simp)

/-- Invariant of the output scan: every initialized-wckb entry records the
alignment target's block number, and the bucket holds at most one entry. -/
def inited_inv (abn : Nat) (st : OutBuckets) : Prop :=
  (∀ t ∈ st.initialized_wckb, t.block_number = abn) ∧
  st.initialized_wckb.length ≤ 1

/-- One output-scan step preserves the initialized-bucket invariant: an
initialized entry is only ever inserted with the target's block number, and
when one is already present the merge-by-block-number path is taken. -/
lemma fetch_outputs_step_inited (env : Env) (abn : Nat) (c : Cell)
    (st st2 : OutBuckets) (hinv : inited_inv abn st)
    (h : fetch_outputs_step env abn c st = .ok st2) :
    inited_inv abn st2 := by
  unfold fetch_outputs_step at h
  cases hth : c.type_hash_opt with
  | none =>
    simp only [hth] at h
    cases h
    exact hinv
  | some th =>
    simp only [hth] at h
    by_cases h1 : th.length ≠ BLAKE2B_BLOCK_SIZE
    · rw [if_pos h1] at h; cases h
    · rw [if_neg h1] at h
      by_cases h2 : c.data.length > UDT_LEN + BLOCK_NUM_LEN
      · rw [if_pos h2] at h; cases h
      · rw [if_neg h2] at h
        by_cases h3 : is_dao_deposit_cell th c.data
        · rw [if_pos h3] at h
          by_cases h4 : c.cell_lock_hash.length ≠ BLAKE2B_BLOCK_SIZE
          · rw [if_pos h4] at h; cases h
          · rw [if_neg h4] at h
            by_cases h5 : st.dao_ptr_bumped = true
            · rw [if_pos h5] at h; cases h
            · rw [if_neg h5] at h
              cases hf : find_swap_by_lock_hash
                  (st.deposited_dao.take st.deposited_dao_cnt)
                  c.cell_lock_hash with
              | some j => rw [hf] at h; cases h; exact hinv
              | none =>
                rw [hf] at h
                by_cases h6 : st.deposited_dao_cnt ≥ MAX_SWAPS
                · rw [if_pos h6] at h; cases h
                · rw [if_neg h6] at h; cases h; exact hinv
        · rw [if_neg h3] at h
          by_cases h7 : th = env.script_hash
          · rw [if_pos h7] at h
            by_cases h8 : c.data.length ≠ UDT_LEN + BLOCK_NUM_LEN
            · rw [if_pos h8] at h; cases h
            · rw [if_neg h8] at h
              by_cases h9 : read_le (c.data.drop UDT_LEN) = 0
              · rw [if_pos h9] at h
                by_cases h10 : c.cell_lock_hash.length ≠ BLAKE2B_BLOCK_SIZE
                · rw [if_pos h10] at h; cases h
                · rw [if_neg h10] at h
                  cases hf : find_swap_by_lock_hash st.uninitialized_wckb
                      c.cell_lock_hash with
                  | some j => rw [hf] at h; cases h; exact hinv
                  | none =>
                    rw [hf] at h
                    by_cases h11 : st.uninitialized_wckb.length ≥ MAX_SWAPS
                    · rw [if_pos h11] at h; cases h
                    · rw [if_neg h11] at h; cases h; exact hinv
              · rw [if_neg h9] at h
                by_cases h12 : read_le (c.data.drop UDT_LEN) ≠ abn
                · rw [if_pos h12] at h; cases h
                · rw [if_neg h12] at h
                  push_neg at h12
                  cases hf : find_token_by_block_number st.initialized_wckb
                      (read_le (c.data.drop UDT_LEN)) with
                  | some j =>
                    rw [hf] at h
                    cases h
                    refine ⟨fun t ht => ?_, ?_⟩
                    · cases mem_list_modify _ j _ t ht with
                      | inl hmem => exact hinv.1 t hmem
                      | inr hmem =>
                        obtain ⟨x, hx, he⟩ := hmem
                        rw [he]
                        exact hinv.1 x hx
                    · show (list_modify _ j st.initialized_wckb).length ≤ 1
                      rw [list_modify_length]
                      exact hinv.2
                  | none =>
                    rw [hf] at h
                    by_cases h13 : st.initialized_wckb.length ≥ MAX_SWAPS
                    · rw [if_pos h13] at h; cases h
                    · rw [if_neg h13] at h
                      cases h
                      have hempty : st.initialized_wckb = [] := by
                        cases hl : st.initialized_wckb with
                        | nil => rfl
                        | cons a as =>
                          exfalso
                          have ha : a ∈ st.initialized_wckb := by
                            rw [hl]; exact List.mem_cons_self a as
                          exact find_token_none st.initialized_wckb _ hf a ha
                            ((hinv.1 a ha).trans h12.symm)
                      refine ⟨fun t ht => ?_, ?_⟩
                      · show t.block_number = abn
                        have hmem : t ∈ st.initialized_wckb ++
                            [TokenInfo.mk (read_le (c.data.drop UDT_LEN))
                              (read_le (c.data.take UDT_LEN))] := ht
                        rw [hempty] at hmem
                        simp at hmem
                        rw [hmem]
                        exact h12
                      · show (st.initialized_wckb ++
                            [TokenInfo.mk (read_le (c.data.drop UDT_LEN))
                              (read_le (c.data.take UDT_LEN))]).length ≤ 1
                        rw [hempty]
                        simp
          · rw [if_neg h7] at h; cases h; exact hinv

/-- The whole output scan preserves the initialized-bucket invariant. -/
lemma fetch_outputs_go_inited (env : Env) (abn : Nat) (cells : List Cell) :
    ∀ (i : Nat) (st st2 : OutBuckets), inited_inv abn st →
      fetch_outputs_go env abn cells i st = .ok st2 → inited_inv abn st2 := by
  induction cells with
  | nil =>
    intro i st st2 hinv h
    simp only [fetch_outputs_go] at h
    cases h
    exact hinv
  | cons c rest ih =>
    intro i st st2 hinv h
    simp only [fetch_outputs_go] at h
    cases hs : fetch_outputs_step env abn c st with
    | error e => rw [hs] at h; cases h
    | ok stm =>
      rw [hs] at h
      exact ih _ _ _ (fetch_outputs_step_inited env abn c st stm hinv hs) h

/-- Claim C10: a successful output scan leaves at most one entry in the
initialized-wckb bucket — every inserted entry carries the alignment
target's block number and insertion merges by block number. -/
theorem c10_initialized_bucket_at_most_one (env : Env) (abn : Nat)
    (st : OutBuckets) (h : fetch_outputs env abn = .ok st) :
    st.initialized_wckb.length ≤ 1 :=
  (fetch_outputs_go_inited env abn env.outputs 0 ⟨[], 0, false, [], []⟩ st
    ⟨fun t ht => absurd ht (List.not_mem_nil t), by decide⟩ h).2

/-- Witness for C10 at a concrete input: the scenario-B transaction's output
scan succeeds and its initialized bucket is within the bound. -/
theorem c10_witness :
    (⟨[⟨mk_hash 2, 500⟩], 0, true, [⟨mk_hash 2, 500⟩], []⟩ :
        OutBuckets).initialized_wckb.length ≤ 1 :=
  c10_initialized_bucket_at_most_one envC3 100 _ rfl

end WCKB
